import Mathlib

/-!
# Verification of the mortgage-calculator amortization core

Shallow embedding of `src/src/utils/mortgageCalculator.ts` over exact
rational arithmetic (`ℚ`).  JavaScript numbers are modelled by rationals;
`Math.round` is modelled by `jsRound` (round half toward positive
infinity); the `while` loops, which are bounded by a statically known
month count, are modelled by fuel recursion where the fuel is exactly the
number of loop iterations still permitted by the month bound.

The presentational `name`/`description` strings of `ScenarioResult`
(built with `Intl.NumberFormat`) are out of scope per the specification
and are omitted from the embedded record; all numeric fields are kept.
-/

namespace MortgageCalc

/-- JavaScript `Math.round`: rounds half toward positive infinity. -/
def jsRound (x : ℚ) : ℤ := ⌊x + 1 / 2⌋

/-- Result record of a simulation (`MortgageResult` in the source).
`refiMonthlyPayment` is an optional field in TypeScript; `none` models the
key being absent. -/
structure MortgageResult where
  totalPaid : ℚ
  durationMonths : ℕ
  monthlyPayment : ℚ
  refiMonthlyPayment : Option ℚ := none
deriving DecidableEq

/-- Embeds `calculateMonthlyPayment(principal, annualRate, termYears)`. -/
def calculateMonthlyPayment (principal annualRate : ℚ) (termYears : ℕ) : ℚ :=
  let monthlyRate := annualRate / 100 / 12
  let numPayments : ℕ := termYears * 12
  if monthlyRate = 0 then
    principal / (numPayments : ℚ)
  else
    principal * monthlyRate * (1 + monthlyRate) ^ numPayments /
      ((1 + monthlyRate) ^ numPayments - 1)

/-- Embeds the monthly `while` loop shared by `simulateMortgage` (lines
69-77) and both phases of `simulateMortgageWithRefi` (lines 118-125 and
152-160): while the balance exceeds 0.01 and fuel remains, pay
`min(balance + interest, payment)`, reduce the balance by the principal
portion, clamp a negative balance to zero, and accumulate the payment and
the month count.  Returns `(balance, totalPaid, months)`. -/
def amortize (rate payment : ℚ) : ℕ → ℚ → ℚ → ℕ → ℚ × ℚ × ℕ
  | 0, balance, totalPaid, months => (balance, totalPaid, months)
  | fuel + 1, balance, totalPaid, months =>
    if 1 / 100 < balance then
      let interestPayment := balance * rate
      let actualPayment := min (balance + interestPayment) payment
      let newBalance := balance - (actualPayment - interestPayment)
      amortize rate payment fuel (if newBalance < 0 then 0 else newBalance)
        (totalPaid + actualPayment) (months + 1)
    else
      (balance, totalPaid, months)

/-- The list of actual monthly payments made by the loop of `amortize`,
in order.  Used to state that the `totalPaid` accumulator really is the
sum of the individual cash outflows. -/
def amortizePayments (rate payment : ℚ) : ℕ → ℚ → List ℚ
  | 0, _ => []
  | fuel + 1, balance =>
    if 1 / 100 < balance then
      let interestPayment := balance * rate
      let actualPayment := min (balance + interestPayment) payment
      let newBalance := balance - (actualPayment - interestPayment)
      actualPayment ::
        amortizePayments rate payment fuel (if newBalance < 0 then 0 else newBalance)
    else
      []

/-- Final balance of the amortization loop, independent of the `totalPaid`
and `months` accumulators. -/
def amortizeBalance (rate payment : ℚ) (fuel : ℕ) (balance : ℚ) : ℚ :=
  (amortize rate payment fuel balance 0 0).1

/-- Embeds `simulateMortgage(principal, annualRate, termYears,
extraMonthlyPayment, lumpSumAtStart)` (lines 45-84). -/
def simulateMortgage (principal annualRate : ℚ) (termYears : ℕ)
    (extraMonthlyPayment lumpSumAtStart : ℚ) : MortgageResult :=
  let monthlyRate := annualRate / 100 / 12
  let balance := principal - lumpSumAtStart
  if balance ≤ 0 then
    { totalPaid := (jsRound principal : ℚ), durationMonths := 0, monthlyPayment := 0 }
  else
    let baseMonthlyPayment := calculateMonthlyPayment principal annualRate termYears
    let r := amortize monthlyRate (baseMonthlyPayment + extraMonthlyPayment)
      (termYears * 12) balance lumpSumAtStart 0
    { totalPaid := (jsRound r.2.1 : ℚ), durationMonths := r.2.2,
      monthlyPayment := baseMonthlyPayment }

/-- Embeds `simulateMortgageWithRefi` (lines 87-168): phase 1 bounded by
`refiAfterYears * 12` months, then the at-refinance lump sum, then phase 2
at the new rate with a payment computed from the post-lump-sum balance,
bounded by `refiTermYears * 12` further months. -/
def simulateMortgageWithRefi (principal annualRate : ℚ) (termYears : ℕ)
    (extraMonthlyPayment lumpSumAtStart : ℚ) (refiAfterYears refiTermYears : ℕ)
    (refiRate extraAfterRefi lumpSumAfterRefi : ℚ) : MortgageResult :=
  let monthlyRate := annualRate / 100 / 12
  let balance0 := principal - lumpSumAtStart
  if balance0 ≤ 0 then
    { totalPaid := (jsRound principal : ℚ), durationMonths := 0, monthlyPayment := 0 }
  else
    let baseMonthlyPayment := calculateMonthlyPayment principal annualRate termYears
    let p1 := amortize monthlyRate (baseMonthlyPayment + extraMonthlyPayment)
      (refiAfterYears * 12) balance0 lumpSumAtStart 0
    if p1.1 ≤ 1 / 100 then
      { totalPaid := (jsRound p1.2.1 : ℚ), durationMonths := p1.2.2,
        monthlyPayment := baseMonthlyPayment }
    else
      let balance2 := p1.1 - lumpSumAfterRefi
      let totalPaid2 := p1.2.1 + lumpSumAfterRefi
      if balance2 ≤ 1 / 100 then
        { totalPaid := (jsRound totalPaid2 : ℚ), durationMonths := p1.2.2,
          monthlyPayment := baseMonthlyPayment }
      else
        let refiMonthlyRate := refiRate / 100 / 12
        let refiPayment := calculateMonthlyPayment balance2 refiRate refiTermYears
        let p2 := amortize refiMonthlyRate (refiPayment + extraAfterRefi)
          (refiTermYears * 12) balance2 totalPaid2 p1.2.2
        { totalPaid := (jsRound p2.2.1 : ℚ), durationMonths := p2.2.2,
          monthlyPayment := baseMonthlyPayment,
          refiMonthlyPayment := some refiPayment }

/-- Embeds `CalculatorInputs` (lines 184-194). -/
structure CalculatorInputs where
  loanAmount : ℚ
  interestRate : ℚ
  loanTermYears : ℕ
  extraPayment : ℚ
  lumpSumAtStart : ℚ
  refiAfterYears : ℕ
  refiTermYears : ℕ
  refiRate : ℚ
  lumpSumAfterRefi : ℚ
deriving DecidableEq

/-- Embeds `ScenarioResult` (lines 15-22), numeric fields only: the
`name` and `description` strings are presentational and out of scope. -/
structure ScenarioResult where
  totalPaid : ℚ
  durationMonths : ℕ
  monthlyPayment : ℚ
  refiMonthlyPayment : Option ℚ := none
deriving DecidableEq

/-- Embeds `calculateAllScenarios(inputs)` (lines 196-269): the four
fixed scenarios in source order. -/
def calculateAllScenarios (inputs : CalculatorInputs) : List ScenarioResult :=
  let standard := simulateMortgage inputs.loanAmount inputs.interestRate
    inputs.loanTermYears 0 0
  let extraNoRefi := simulateMortgage inputs.loanAmount inputs.interestRate
    inputs.loanTermYears inputs.extraPayment inputs.lumpSumAtStart
  let refiNoExtraAfter := simulateMortgageWithRefi inputs.loanAmount inputs.interestRate
    inputs.loanTermYears inputs.extraPayment inputs.lumpSumAtStart
    inputs.refiAfterYears inputs.refiTermYears inputs.refiRate 0 inputs.lumpSumAfterRefi
  let refiWithExtraAfter := simulateMortgageWithRefi inputs.loanAmount inputs.interestRate
    inputs.loanTermYears inputs.extraPayment inputs.lumpSumAtStart
    inputs.refiAfterYears inputs.refiTermYears inputs.refiRate
    inputs.extraPayment inputs.lumpSumAfterRefi
  [{ totalPaid := standard.totalPaid, durationMonths := standard.durationMonths,
     monthlyPayment := standard.monthlyPayment },
   { totalPaid := extraNoRefi.totalPaid, durationMonths := extraNoRefi.durationMonths,
     monthlyPayment := extraNoRefi.monthlyPayment },
   { totalPaid := refiNoExtraAfter.totalPaid, durationMonths := refiNoExtraAfter.durationMonths,
     monthlyPayment := refiNoExtraAfter.monthlyPayment,
     refiMonthlyPayment := refiNoExtraAfter.refiMonthlyPayment },
   { totalPaid := refiWithExtraAfter.totalPaid, durationMonths := refiWithExtraAfter.durationMonths,
     monthlyPayment := refiWithExtraAfter.monthlyPayment,
     refiMonthlyPayment := refiWithExtraAfter.refiMonthlyPayment }]


/-- Partial sums of the geometric series `1 + q + ... + q^(n-1)`, in the
Horner-style recurrence matched by one amortization step. -/
def geomSum (q : ℚ) : ℕ → ℚ
  | 0 => 0
  | n + 1 => geomSum q n * q + 1

/-- Closed-form remaining balance after `n` scheduled payments of `pay`
at per-period growth factor `q` starting from principal `P`. -/
def sched (P q pay : ℚ) (n : ℕ) : ℚ := P * q ^ n - pay * geomSum q n

/-- Rounding to the nearest cent (hundredth of a currency unit). -/
def roundToCents (x : ℚ) : ℚ := ((jsRound (100 * x)) : ℚ) / 100

/-- The total cash outflow of a `simulateMortgage` call: the start lump
sum plus every per-month actual payment made by the loop. -/
def simulateMortgageOutflows (principal annualRate : ℚ) (termYears : ℕ)
    (extraMonthlyPayment lumpSumAtStart : ℚ) : ℚ :=
  let monthlyRate := annualRate / 100 / 12
  let balance := principal - lumpSumAtStart
  if balance ≤ 0 then
    lumpSumAtStart
  else
    lumpSumAtStart + (amortizePayments monthlyRate
      (calculateMonthlyPayment principal annualRate termYears + extraMonthlyPayment)
      (termYears * 12) balance).sum

/-- The total cash outflow of a `simulateMortgageWithRefi` call: the
start lump sum, the phase-1 monthly payments, and — when the refinance
point is reached with a balance above the threshold — the at-refinance
lump sum and the phase-2 monthly payments. -/
def simulateMortgageWithRefiOutflows (principal annualRate : ℚ) (termYears : ℕ)
    (extraMonthlyPayment lumpSumAtStart : ℚ) (refiAfterYears refiTermYears : ℕ)
    (refiRate extraAfterRefi lumpSumAfterRefi : ℚ) : ℚ :=
  let monthlyRate := annualRate / 100 / 12
  let balance0 := principal - lumpSumAtStart
  if balance0 ≤ 0 then
    lumpSumAtStart
  else
    let baseMonthlyPayment := calculateMonthlyPayment principal annualRate termYears
    let s1 := (amortizePayments monthlyRate (baseMonthlyPayment + extraMonthlyPayment)
      (refiAfterYears * 12) balance0).sum
    let b1 := amortizeBalance monthlyRate (baseMonthlyPayment + extraMonthlyPayment)
      (refiAfterYears * 12) balance0
    if b1 ≤ 1 / 100 then
      lumpSumAtStart + s1
    else
      let balance2 := b1 - lumpSumAfterRefi
      if balance2 ≤ 1 / 100 then
        lumpSumAtStart + s1 + lumpSumAfterRefi
      else
        lumpSumAtStart + s1 + lumpSumAfterRefi +
          (amortizePayments (refiRate / 100 / 12)
            (calculateMonthlyPayment balance2 refiRate refiTermYears + extraAfterRefi)
            (refiTermYears * 12) balance2).sum

/-- A concrete input record with no extra payment and no at-refinance
lump sum, used to instantiate universally quantified theorems. -/
def sampleInputsA : CalculatorInputs :=
  { loanAmount := 1000, interestRate := 6, loanTermYears := 30, extraPayment := 0,
    lumpSumAtStart := 0, refiAfterYears := 5, refiTermYears := 15, refiRate := 4,
    lumpSumAfterRefi := 0 }

/-! ## Basic facts about the amortization loop -/

theorem clamp_eq_max (bal rate p : ℚ) :
    (if bal - (min (bal + bal * rate) p - bal * rate) < 0 then 0
      else bal - (min (bal + bal * rate) p - bal * rate)) =
      max (bal * (1 + rate) - p) 0 := by
  rcases le_total (bal + bal * rate) p with h | h
  · rw [min_eq_left h]
    rw [max_eq_right (by linarith)]
    have h2 : bal - (bal + bal * rate - bal * rate) = 0 := by ring
    rw [h2]
    simp
  · rw [min_eq_right h]
    rw [max_eq_left (by linarith)]
    rw [if_neg (by intro hc; nlinarith)]
    ring

theorem amortize_step (rate p bal t : ℚ) (fuel m : ℕ) (h : 1 / 100 < bal) :
    amortize rate p (fuel + 1) bal t m =
      amortize rate p fuel (max (bal * (1 + rate) - p) 0)
        (t + min (bal + bal * rate) p) (m + 1) := by
  rw [show amortize rate p (fuel + 1) bal t m =
      (if 1 / 100 < bal then
        amortize rate p fuel
          (if bal - (min (bal + bal * rate) p - bal * rate) < 0 then 0
            else bal - (min (bal + bal * rate) p - bal * rate))
          (t + min (bal + bal * rate) p) (m + 1)
        else (bal, t, m)) from rfl]
  rw [if_pos h, clamp_eq_max]

theorem amortize_stop (rate p bal t : ℚ) (fuel m : ℕ) (h : ¬ 1 / 100 < bal) :
    amortize rate p fuel bal t m = (bal, t, m) := by
  cases fuel with
  | zero => rfl
  | succ n =>
    show (if 1 / 100 < bal then _ else (bal, t, m)) = (bal, t, m)
    rw [if_neg h]

/-- The loop result decomposes: its final balance ignores the
accumulators, its `totalPaid` is the starting accumulator plus the sum of
the individual actual payments, and its month counter advances by the
number of payments made. -/
theorem amortize_acc (rate p : ℚ) :
    ∀ (fuel : ℕ) (bal t : ℚ) (m : ℕ),
      amortize rate p fuel bal t m =
        (amortizeBalance rate p fuel bal,
         t + (amortizePayments rate p fuel bal).sum,
         m + (amortizePayments rate p fuel bal).length) := by
  intro fuel
  induction fuel with
  | zero => intro bal t m; simp [amortize, amortizeBalance, amortizePayments]
  | succ n ih =>
    intro bal t m
    by_cases h : 1 / 100 < bal
    · show (if 1 / 100 < bal then _ else _) = _
      rw [if_pos h]
      rw [ih]
      have hb : amortizeBalance rate p (n + 1) bal =
          amortizeBalance rate p n
            (if bal - (min (bal + bal * rate) p - bal * rate) < 0 then 0
              else bal - (min (bal + bal * rate) p - bal * rate)) := by
        show (amortize rate p (n + 1) bal 0 0).1 = _
        show ((if 1 / 100 < bal then _ else _ : ℚ × ℚ × ℕ)).1 = _
        rw [if_pos h]
        rw [ih]
      have hp : amortizePayments rate p (n + 1) bal =
          min (bal + bal * rate) p ::
            amortizePayments rate p n
              (if bal - (min (bal + bal * rate) p - bal * rate) < 0 then 0
                else bal - (min (bal + bal * rate) p - bal * rate)) := by
        show (if 1 / 100 < bal then _ else _) = _
        rw [if_pos h]
      rw [hb, hp]
      simp [List.sum_cons]
      constructor
      · ring
      · omega
    · rw [amortize_stop _ _ _ _ _ _ h]
      have hp : amortizePayments rate p (n + 1) bal = [] := by
        show (if 1 / 100 < bal then _ else _) = _
        rw [if_neg h]
      have hb : amortizeBalance rate p (n + 1) bal = bal := by
        show (amortize rate p (n + 1) bal 0 0).1 = bal
        rw [amortize_stop _ _ _ _ _ _ h]
      simp [hb, hp]

/-- The elapsed-month counter of the loop never exceeds its initial value
plus the remaining fuel. -/
theorem amortize_months_le_fuel (rate p : ℚ) :
    ∀ (fuel : ℕ) (bal t : ℚ) (m : ℕ),
      (amortize rate p fuel bal t m).2.2 ≤ m + fuel := by
  intro fuel
  induction fuel with
  | zero => intro bal t m; simp [amortize]
  | succ n ih =>
    intro bal t m
    by_cases h : 1 / 100 < bal
    · rw [amortize_step _ _ _ _ _ _ h]
      calc (amortize rate p n _ _ (m + 1)).2.2 ≤ (m + 1) + n := ih _ _ _
        _ = m + (n + 1) := by omega
    · rw [amortize_stop _ _ _ _ _ _ h]
      exact Nat.le_add_right _ _

theorem le_amortize_months (rate p : ℚ) :
    ∀ (fuel : ℕ) (bal t : ℚ) (m : ℕ), m ≤ (amortize rate p fuel bal t m).2.2 := by
  intro fuel
  induction fuel with
  | zero => intro bal t m; simp [amortize]
  | succ n ih =>
    intro bal t m
    by_cases h : 1 / 100 < bal
    · rw [amortize_step _ _ _ _ _ _ h]
      exact le_trans (by omega) (ih _ _ (m + 1))
    · rw [amortize_stop _ _ _ _ _ _ h]

/-- With a (pointwise) smaller starting balance and a larger payment, the
loop runs for at most as many months. -/
theorem amortize_months_mono (rate : ℚ) (hq : 0 ≤ 1 + rate) :
    ∀ (fuel : ℕ) (p1 p2 b1 b2 t1 t2 : ℚ) (m : ℕ), p1 ≤ p2 → b2 ≤ b1 →
      (amortize rate p2 fuel b2 t2 m).2.2 ≤ (amortize rate p1 fuel b1 t1 m).2.2 := by
  intro fuel
  induction fuel with
  | zero => intro p1 p2 b1 b2 t1 t2 m hp hb; simp [amortize]
  | succ n ih =>
    intro p1 p2 b1 b2 t1 t2 m hp hb
    by_cases h1 : 1 / 100 < b1
    · rw [amortize_step _ _ _ _ _ _ h1]
      by_cases h2 : 1 / 100 < b2
      · rw [amortize_step _ _ _ _ _ _ h2]
        refine ih _ _ _ _ _ _ _ hp ?_
        have hbb : b2 * (1 + rate) - p2 ≤ b1 * (1 + rate) - p1 := by
          have := mul_le_mul_of_nonneg_right hb hq
          linarith
        exact max_le_max hbb le_rfl
      · rw [amortize_stop _ _ _ _ _ _ h2]
        exact le_trans (Nat.le_succ m) (le_amortize_months _ _ _ _ _ _)
    · rw [amortize_stop _ _ _ _ _ _ h1]
      have h2 : ¬ 1 / 100 < b2 := fun hc => h1 (lt_of_lt_of_le hc hb)
      rw [amortize_stop _ _ _ _ _ _ h2]

/-! ## The closed-form amortization schedule -/

theorem sched_succ (P q pay : ℚ) (n : ℕ) :
    sched P q pay (n + 1) = sched P q pay n * q - pay := by
  simp only [sched, geomSum, pow_succ]
  ring

theorem geomSum_one (n : ℕ) : geomSum 1 n = n := by
  induction n with
  | zero => rfl
  | succ k ih => simp [geomSum, ih]

theorem geomSum_mul_sub_one (q : ℚ) (n : ℕ) : geomSum q n * (q - 1) = q ^ n - 1 := by
  induction n with
  | zero => simp [geomSum]
  | succ k ih =>
    show (geomSum q k * q + 1) * (q - 1) = q ^ (k + 1) - 1
    have h : (geomSum q k * q + 1) * (q - 1) = geomSum q k * (q - 1) * q + (q - 1) := by ring
    rw [h, ih, pow_succ]
    ring

/-- One amortization step preserves the schedule upper bound. -/
theorem sched_step_bound (P q pay paytot bal : ℚ) (n : ℕ) (hq : 0 ≤ q)
    (hpay : 0 ≤ pay) (hpt : pay ≤ paytot)
    (h : bal ≤ max (sched P q pay n) 0) :
    max (bal * q - paytot) 0 ≤ max (sched P q pay (n + 1)) 0 := by
  have h1 : bal * q ≤ max (sched P q pay n) 0 * q := mul_le_mul_of_nonneg_right h hq
  have h2 : max (sched P q pay n) 0 * q = max (sched P q pay n * q) 0 := by
    rw [max_mul_of_nonneg _ _ hq, zero_mul]
  have h3 : bal * q - paytot ≤ max (sched P q pay n * q) 0 - pay := by
    rw [← h2]; linarith
  have h4 : max (sched P q pay n * q) 0 - pay =
      max (sched P q pay (n + 1)) (-pay) := by
    rw [sched_succ, ← max_sub_sub_right, zero_sub]
  have h5 : max (sched P q pay (n + 1)) (-pay) ≤ max (sched P q pay (n + 1)) 0 :=
    max_le_max le_rfl (by linarith)
  exact max_le (by linarith) (le_max_right _ _)

/-- If the starting balance is under the schedule with `d` payments left
and the scheduled balance vanishes at `N`, the loop runs at most `d` more
months, regardless of fuel. -/
theorem amortize_months_of_sched (P rate pay paytot : ℚ) (hq : 0 ≤ 1 + rate)
    (hpay : 0 ≤ pay) (hpt : pay ≤ paytot) (N : ℕ)
    (hN : sched P (1 + rate) pay N = 0) :
    ∀ (d fuel : ℕ) (bal t : ℚ) (m : ℕ), d ≤ N →
      bal ≤ max (sched P (1 + rate) pay (N - d)) 0 →
      (amortize rate paytot fuel bal t m).2.2 ≤ m + d := by
  intro d
  induction d with
  | zero =>
    intro fuel bal t m _ hb
    rw [Nat.sub_zero, hN] at hb
    simp only [max_self] at hb
    rw [amortize_stop _ _ _ _ _ _ (by intro hc; linarith)]
    exact Nat.le_add_right _ _
  | succ d ih =>
    intro fuel bal t m hd hb
    by_cases h : 1 / 100 < bal
    · cases fuel with
      | zero =>
        show (bal, t, m).2.2 ≤ m + (d + 1)
        exact Nat.le_add_right _ _
      | succ f =>
        rw [amortize_step _ _ _ _ _ _ h]
        have hidx : N - (d + 1) + 1 = N - d := by omega
        have hb' : max (bal * (1 + rate) - paytot) 0 ≤
            max (sched P (1 + rate) pay (N - d)) 0 := by
          rw [← hidx]
          exact sched_step_bound P (1 + rate) pay paytot bal (N - (d + 1)) hq hpay hpt hb
        calc (amortize rate paytot f _ _ (m + 1)).2.2 ≤ (m + 1) + d :=
              ih f _ _ (m + 1) (by omega) hb'
          _ = m + (d + 1) := by omega
    · rw [amortize_stop _ _ _ _ _ _ h]
      exact Nat.le_add_right _ _

/-- The scheduled payment fully amortizes the principal at exactly
`termYears * 12` periods: the closed-form balance there is zero. -/
theorem sched_calculateMonthlyPayment (P annualRate : ℚ) (ty : ℕ)
    (hty : 0 < ty) (hr : 0 ≤ annualRate) :
    sched P (1 + annualRate / 100 / 12) (calculateMonthlyPayment P annualRate ty)
      (ty * 12) = 0 := by
  have hN : ((ty * 12 : ℕ) : ℚ) ≠ 0 := by
    have h : ty * 12 ≠ 0 := by omega
    exact_mod_cast Nat.cast_ne_zero.mpr h
  by_cases h0 : annualRate / 100 / 12 = 0
  · have hq : (1 : ℚ) + annualRate / 100 / 12 = 1 := by rw [h0]; ring
    have hpay : calculateMonthlyPayment P annualRate ty = P / ((ty * 12 : ℕ) : ℚ) := by
      simp only [calculateMonthlyPayment, if_pos h0]
    rw [hq, hpay, sched, one_pow, geomSum_one, mul_one]
    rw [div_mul_cancel₀ _ hN]
    ring
  · have hrpos : 0 < annualRate / 100 / 12 := by
      rcases lt_or_eq_of_le (by positivity : (0:ℚ) ≤ annualRate / 100 / 12) with h | h
      · exact h
      · exact absurd h.symm h0
    have hq1 : (1 : ℚ) < 1 + annualRate / 100 / 12 := by linarith
    have hN0 : ty * 12 ≠ 0 := by omega
    have hqN : (1 : ℚ) < (1 + annualRate / 100 / 12) ^ (ty * 12) := one_lt_pow₀ hq1 hN0
    have hden : (1 + annualRate / 100 / 12) ^ (ty * 12) - 1 ≠ 0 := ne_of_gt (by linarith)
    have hpay : calculateMonthlyPayment P annualRate ty =
        P * (annualRate / 100 / 12) * (1 + annualRate / 100 / 12) ^ (ty * 12) /
          ((1 + annualRate / 100 / 12) ^ (ty * 12) - 1) := by
      simp only [calculateMonthlyPayment, if_neg h0]
    have hgeom : geomSum (1 + annualRate / 100 / 12) (ty * 12) =
        ((1 + annualRate / 100 / 12) ^ (ty * 12) - 1) / (annualRate / 100 / 12) := by
      have hg := geomSum_mul_sub_one (1 + annualRate / 100 / 12) (ty * 12)
      have h1r : (1 : ℚ) + annualRate / 100 / 12 - 1 = annualRate / 100 / 12 := by ring
      rw [h1r] at hg
      rw [eq_div_iff (ne_of_gt hrpos)]
      exact hg
    rw [sched, hpay, hgeom]
    set r := annualRate / 100 / 12 with hrd
    have hr0 : r ≠ 0 := ne_of_gt hrpos
    field_simp
    ring

theorem calculateMonthlyPayment_nonneg (P annualRate : ℚ) (ty : ℕ)
    (hP : 0 ≤ P) (hr : 0 ≤ annualRate) (hty : 0 < ty) :
    0 ≤ calculateMonthlyPayment P annualRate ty := by
  by_cases h0 : annualRate / 100 / 12 = 0
  · simp only [calculateMonthlyPayment, if_pos h0]
    positivity
  · simp only [calculateMonthlyPayment, if_neg h0]
    have hrpos : 0 < annualRate / 100 / 12 := by
      rcases lt_or_eq_of_le (by positivity : (0:ℚ) ≤ annualRate / 100 / 12) with h | h
      · exact h
      · exact absurd h.symm h0
    have hq1 : (1 : ℚ) < 1 + annualRate / 100 / 12 := by linarith
    have hqN : (1 : ℚ) < (1 + annualRate / 100 / 12) ^ (ty * 12) :=
      one_lt_pow₀ hq1 (by omega)
    have hnum : 0 ≤ P * (annualRate / 100 / 12) * (1 + annualRate / 100 / 12) ^ (ty * 12) := by
      positivity
    exact div_nonneg hnum (by linarith)

/-- Zero-rate trajectory: starting from exactly `k` payments worth of
balance, the loop makes exactly `k` payments of `p` each and ends at
balance zero, provided a single payment stays above the stop threshold. -/
theorem amortize_zero_rate (p : ℚ) (hp : 1 / 100 < p) :
    ∀ (k : ℕ) (t : ℚ) (m : ℕ),
      amortize 0 p k ((k : ℚ) * p) t m = (0, t + (k : ℚ) * p, m + k) := by
  intro k
  induction k with
  | zero => intro t m; simp [amortize]
  | succ n ih =>
    intro t m
    have hp0 : 0 ≤ p := by linarith
    have hbal : 1 / 100 < ((n + 1 : ℕ) : ℚ) * p := by
      have h1 : (1 : ℚ) ≤ ((n + 1 : ℕ) : ℚ) := by
        exact_mod_cast Nat.one_le_iff_ne_zero.mpr (by omega)
      nlinarith
    show (if 1 / 100 < ((n + 1 : ℕ) : ℚ) * p then _ else _) = _
    rw [if_pos hbal]
    simp only []
    have hmin : min (((n + 1 : ℕ) : ℚ) * p + ((n + 1 : ℕ) : ℚ) * p * 0) p = p := by
      rw [mul_zero, add_zero]
      refine min_eq_right ?_
      have h1 : (1 : ℚ) ≤ ((n + 1 : ℕ) : ℚ) := by
        exact_mod_cast Nat.one_le_iff_ne_zero.mpr (by omega)
      nlinarith
    rw [hmin]
    have hnb : ((n + 1 : ℕ) : ℚ) * p - (p - ((n + 1 : ℕ) : ℚ) * p * 0) = (n : ℚ) * p := by
      push_cast
      ring
    rw [hnb]
    have hnneg : ¬ ((n : ℚ) * p < 0) := by
      push_neg
      positivity
    rw [if_neg hnneg]
    rw [ih]
    have h1 : t + p + (n : ℚ) * p = t + ((n + 1 : ℕ) : ℚ) * p := by push_cast; ring
    have h2 : m + 1 + n = m + (n + 1) := by omega
    rw [h1, h2]


/-! ## Claim theorems -/

/-- C1: for every call to `simulateMortgageWithRefi` with a positive
starting balance (under the spec preconditions: positive term,
nonnegative rate, extra payment and lump sum), the phase-1 loop runs for
at most `min (termYears*12) (refiAfterYears*12)` elapsed months, the
returned `durationMonths` is at most that bound whenever the function
returns before refinancing (no refinance payment in the result), and at
most that bound plus `refiTermYears*12` overall. -/
theorem claimC1 (P annualRate : ℚ) (ty : ℕ) (extra lump : ℚ)
    (ra rt : ℕ) (rr ea la : ℚ)
    (hr : 0 ≤ annualRate) (hty : 0 < ty) (hextra : 0 ≤ extra) (hlump : 0 ≤ lump)
    (hbal : 0 < P - lump) :
    (amortize (annualRate / 100 / 12)
        (calculateMonthlyPayment P annualRate ty + extra) (ra * 12) (P - lump) lump 0).2.2
      ≤ min (ty * 12) (ra * 12) ∧
    ((simulateMortgageWithRefi P annualRate ty extra lump ra rt rr ea la).refiMonthlyPayment
        = none →
      (simulateMortgageWithRefi P annualRate ty extra lump ra rt rr ea la).durationMonths
        ≤ min (ty * 12) (ra * 12)) ∧
    (simulateMortgageWithRefi P annualRate ty extra lump ra rt rr ea la).durationMonths
      ≤ min (ty * 12) (ra * 12) + rt * 12 := by
  have hP : 0 ≤ P := by linarith
  have hrm : 0 ≤ annualRate / 100 / 12 := by positivity
  have hpay0 : 0 ≤ calculateMonthlyPayment P annualRate ty :=
    calculateMonthlyPayment_nonneg P annualRate ty hP hr hty
  have h1a : (amortize (annualRate / 100 / 12)
      (calculateMonthlyPayment P annualRate ty + extra) (ra * 12) (P - lump) lump 0).2.2
        ≤ ra * 12 := by
    have h := amortize_months_le_fuel (annualRate / 100 / 12)
      (calculateMonthlyPayment P annualRate ty + extra) (ra * 12) (P - lump) lump 0
    simpa using h
  have h1b : (amortize (annualRate / 100 / 12)
      (calculateMonthlyPayment P annualRate ty + extra) (ra * 12) (P - lump) lump 0).2.2
        ≤ ty * 12 := by
    have hstart : P - lump ≤
        max (sched P (1 + annualRate / 100 / 12)
          (calculateMonthlyPayment P annualRate ty) (ty * 12 - ty * 12)) 0 := by
      rw [Nat.sub_self]
      have hs : sched P (1 + annualRate / 100 / 12)
          (calculateMonthlyPayment P annualRate ty) 0 = P := by
        simp [sched, geomSum]
      rw [hs]
      exact le_trans (by linarith) (le_max_left _ _)
    have h := amortize_months_of_sched P (annualRate / 100 / 12)
      (calculateMonthlyPayment P annualRate ty)
      (calculateMonthlyPayment P annualRate ty + extra)
      (by linarith) hpay0 (by linarith) (ty * 12)
      (sched_calculateMonthlyPayment P annualRate ty hty hr)
      (ty * 12) (ra * 12) (P - lump) lump 0 le_rfl hstart
    simpa using h
  have h1 : (amortize (annualRate / 100 / 12)
      (calculateMonthlyPayment P annualRate ty + extra) (ra * 12) (P - lump) lump 0).2.2
        ≤ min (ty * 12) (ra * 12) := le_min h1b h1a
  have hbal' : ¬ (P - lump ≤ 0) := not_le.mpr hbal
  refine ⟨h1, ?_, ?_⟩
  · intro hnone
    simp only [simulateMortgageWithRefi] at hnone ⊢
    rw [if_neg hbal'] at hnone ⊢
    by_cases hb1 : (amortize (annualRate / 100 / 12)
        (calculateMonthlyPayment P annualRate ty + extra) (ra * 12) (P - lump) lump 0).1
          ≤ 1 / 100
    · rw [if_pos hb1]
      exact h1
    · rw [if_neg hb1] at hnone ⊢
      by_cases hb2 : (amortize (annualRate / 100 / 12)
          (calculateMonthlyPayment P annualRate ty + extra) (ra * 12) (P - lump) lump 0).1
            - la ≤ 1 / 100
      · rw [if_pos hb2]
        exact h1
      · rw [if_neg hb2] at hnone
        exact absurd hnone (by simp)
  · simp only [simulateMortgageWithRefi]
    rw [if_neg hbal']
    by_cases hb1 : (amortize (annualRate / 100 / 12)
        (calculateMonthlyPayment P annualRate ty + extra) (ra * 12) (P - lump) lump 0).1
          ≤ 1 / 100
    · rw [if_pos hb1]
      exact le_trans h1 (Nat.le_add_right _ _)
    · rw [if_neg hb1]
      by_cases hb2 : (amortize (annualRate / 100 / 12)
          (calculateMonthlyPayment P annualRate ty + extra) (ra * 12) (P - lump) lump 0).1
            - la ≤ 1 / 100
      · rw [if_pos hb2]
        exact le_trans h1 (Nat.le_add_right _ _)
      · rw [if_neg hb2]
        have h2 := amortize_months_le_fuel (rr / 100 / 12)
          (calculateMonthlyPayment
            ((amortize (annualRate / 100 / 12)
              (calculateMonthlyPayment P annualRate ty + extra) (ra * 12)
              (P - lump) lump 0).1 - la) rr rt + ea)
          (rt * 12)
          ((amortize (annualRate / 100 / 12)
            (calculateMonthlyPayment P annualRate ty + extra) (ra * 12)
            (P - lump) lump 0).1 - la)
          ((amortize (annualRate / 100 / 12)
            (calculateMonthlyPayment P annualRate ty + extra) (ra * 12)
            (P - lump) lump 0).2.1 + la)
          ((amortize (annualRate / 100 / 12)
            (calculateMonthlyPayment P annualRate ty + extra) (ra * 12)
            (P - lump) lump 0).2.2)
        exact le_trans h2 (by omega)

/-- Witness for C1 at concrete inputs. -/
theorem claimC1_witness :
    (amortize ((0 : ℚ) / 100 / 12)
        (calculateMonthlyPayment 1000 0 1 + 0) (1 * 12) ((1000 : ℚ) - 0) 0 0).2.2
      ≤ min (1 * 12) (1 * 12) ∧
    ((simulateMortgageWithRefi 1000 0 1 0 0 1 1 0 0 0).refiMonthlyPayment = none →
      (simulateMortgageWithRefi 1000 0 1 0 0 1 1 0 0 0).durationMonths
        ≤ min (1 * 12) (1 * 12)) ∧
    (simulateMortgageWithRefi 1000 0 1 0 0 1 1 0 0 0).durationMonths
      ≤ min (1 * 12) (1 * 12) + 1 * 12 :=
  claimC1 1000 0 1 0 0 1 1 0 0 0 (by norm_num) (by norm_num) (by norm_num)
    (by norm_num) (by norm_num)


/-- The loop never leaves a negative balance. -/
theorem amortize_balance_nonneg (rate p : ℚ) :
    ∀ (fuel : ℕ) (bal t : ℚ) (m : ℕ), 0 ≤ bal →
      0 ≤ (amortize rate p fuel bal t m).1 := by
  intro fuel
  induction fuel with
  | zero => intro bal t m hb; simpa [amortize] using hb
  | succ n ih =>
    intro bal t m hb
    by_cases h : 1 / 100 < bal
    · rw [amortize_step _ _ _ _ _ _ h]
      exact ih _ _ _ (le_max_right _ _)
    · rw [amortize_stop _ _ _ _ _ _ h]
      exact hb

/-- C2: in every iteration of the monthly loop of `simulateMortgage`
(balance above the 0.01 threshold with months remaining), the payment
actually applied is `min (balance + interestDue) (scheduledPayment +
extraMonthly)` with `interestDue = balance * monthlyRate`, the balance
decreases by exactly the principal portion `actual - interestDue` and is
clamped to zero if that would make it negative — so a final partial
payment is `balance + interestDue` and ends the loop at balance zero, and
the balance never goes negative. -/
theorem claimC2 (P annualRate : ℚ) (ty : ℕ) (extra bal paid : ℚ) (fuel m : ℕ)
    (h : 1 / 100 < bal) (hb0 : 0 ≤ bal) :
    (amortize (annualRate / 100 / 12) (calculateMonthlyPayment P annualRate ty + extra)
        (fuel + 1) bal paid m =
      amortize (annualRate / 100 / 12) (calculateMonthlyPayment P annualRate ty + extra)
        fuel
        (if bal - (min (bal + bal * (annualRate / 100 / 12))
              (calculateMonthlyPayment P annualRate ty + extra)
            - bal * (annualRate / 100 / 12)) < 0 then 0
          else bal - (min (bal + bal * (annualRate / 100 / 12))
              (calculateMonthlyPayment P annualRate ty + extra)
            - bal * (annualRate / 100 / 12)))
        (paid + min (bal + bal * (annualRate / 100 / 12))
          (calculateMonthlyPayment P annualRate ty + extra)) (m + 1)) ∧
    0 ≤ (amortize (annualRate / 100 / 12)
        (calculateMonthlyPayment P annualRate ty + extra) (fuel + 1) bal paid m).1 ∧
    (bal + bal * (annualRate / 100 / 12) ≤ calculateMonthlyPayment P annualRate ty + extra →
      min (bal + bal * (annualRate / 100 / 12))
          (calculateMonthlyPayment P annualRate ty + extra)
        = bal + bal * (annualRate / 100 / 12) ∧
      (if bal - (min (bal + bal * (annualRate / 100 / 12))
            (calculateMonthlyPayment P annualRate ty + extra)
          - bal * (annualRate / 100 / 12)) < 0 then 0
        else bal - (min (bal + bal * (annualRate / 100 / 12))
            (calculateMonthlyPayment P annualRate ty + extra)
          - bal * (annualRate / 100 / 12))) = 0) := by
  refine ⟨?_, ?_, ?_⟩
  · show (if 1 / 100 < bal then _ else _) = _
    rw [if_pos h]
  · exact amortize_balance_nonneg _ _ (fuel + 1) bal paid m hb0
  · intro hcap
    refine ⟨min_eq_left hcap, ?_⟩
    rw [min_eq_left hcap]
    have hz : bal - (bal + bal * (annualRate / 100 / 12)
        - bal * (annualRate / 100 / 12)) = 0 := by ring
    rw [hz]
    simp

/-- Witness for C2 at concrete inputs. -/
theorem claimC2_witness :
    (amortize ((0 : ℚ) / 100 / 12) (calculateMonthlyPayment 1200 0 1 + 0)
        (3 + 1) 100 0 0 =
      amortize ((0 : ℚ) / 100 / 12) (calculateMonthlyPayment 1200 0 1 + 0)
        3
        (if (100 : ℚ) - (min ((100 : ℚ) + 100 * ((0 : ℚ) / 100 / 12))
              (calculateMonthlyPayment 1200 0 1 + 0)
            - 100 * ((0 : ℚ) / 100 / 12)) < 0 then 0
          else (100 : ℚ) - (min ((100 : ℚ) + 100 * ((0 : ℚ) / 100 / 12))
              (calculateMonthlyPayment 1200 0 1 + 0)
            - 100 * ((0 : ℚ) / 100 / 12)))
        ((0 : ℚ) + min ((100 : ℚ) + 100 * ((0 : ℚ) / 100 / 12))
          (calculateMonthlyPayment 1200 0 1 + 0)) (0 + 1)) ∧
    0 ≤ (amortize ((0 : ℚ) / 100 / 12)
        (calculateMonthlyPayment 1200 0 1 + 0) (3 + 1) 100 0 0).1 ∧
    ((100 : ℚ) + 100 * ((0 : ℚ) / 100 / 12) ≤ calculateMonthlyPayment 1200 0 1 + 0 →
      min ((100 : ℚ) + 100 * ((0 : ℚ) / 100 / 12))
          (calculateMonthlyPayment 1200 0 1 + 0)
        = (100 : ℚ) + 100 * ((0 : ℚ) / 100 / 12) ∧
      (if (100 : ℚ) - (min ((100 : ℚ) + 100 * ((0 : ℚ) / 100 / 12))
            (calculateMonthlyPayment 1200 0 1 + 0)
          - 100 * ((0 : ℚ) / 100 / 12)) < 0 then 0
        else (100 : ℚ) - (min ((100 : ℚ) + 100 * ((0 : ℚ) / 100 / 12))
            (calculateMonthlyPayment 1200 0 1 + 0)
          - 100 * ((0 : ℚ) / 100 / 12))) = 0) :=
  claimC2 1200 0 1 0 100 0 3 0 (by norm_num) (by norm_num)

/-- C3: when the starting balance is positive, the phase-1 scheduled
payment reported as `monthlyPayment` is computed from the original
principal, rate and term (not from the post-lump-sum balance), while any
reported `refiMonthlyPayment` is computed from the balance left at the
refinance point minus `lumpSumAfterRefi`, at the refinance rate over the
refinance term; when a refinance occurs the result carries both. -/
theorem claimC3 (P annualRate : ℚ) (ty : ℕ) (extra lump : ℚ)
    (ra rt : ℕ) (rr ea la : ℚ) (hbal : 0 < P - lump) :
    (simulateMortgageWithRefi P annualRate ty extra lump ra rt rr ea la).monthlyPayment
      = calculateMonthlyPayment P annualRate ty ∧
    (∀ p, (simulateMortgageWithRefi P annualRate ty extra lump ra rt rr ea la).refiMonthlyPayment
        = some p →
      p = calculateMonthlyPayment
        ((amortize (annualRate / 100 / 12)
            (calculateMonthlyPayment P annualRate ty + extra)
            (ra * 12) (P - lump) lump 0).1 - la) rr rt) ∧
    (1 / 100 < (amortize (annualRate / 100 / 12)
        (calculateMonthlyPayment P annualRate ty + extra)
        (ra * 12) (P - lump) lump 0).1 →
      1 / 100 < (amortize (annualRate / 100 / 12)
        (calculateMonthlyPayment P annualRate ty + extra)
        (ra * 12) (P - lump) lump 0).1 - la →
      (simulateMortgageWithRefi P annualRate ty extra lump ra rt rr ea la).refiMonthlyPayment
        = some (calculateMonthlyPayment
            ((amortize (annualRate / 100 / 12)
                (calculateMonthlyPayment P annualRate ty + extra)
                (ra * 12) (P - lump) lump 0).1 - la) rr rt)) := by
  have hbal' : ¬ (P - lump ≤ 0) := not_le.mpr hbal
  refine ⟨?_, ?_, ?_⟩
  · simp only [simulateMortgageWithRefi]
    rw [if_neg hbal']
    by_cases hb1 : (amortize (annualRate / 100 / 12)
        (calculateMonthlyPayment P annualRate ty + extra) (ra * 12) (P - lump) lump 0).1
          ≤ 1 / 100
    · rw [if_pos hb1]
    · rw [if_neg hb1]
      by_cases hb2 : (amortize (annualRate / 100 / 12)
          (calculateMonthlyPayment P annualRate ty + extra) (ra * 12) (P - lump) lump 0).1
            - la ≤ 1 / 100
      · rw [if_pos hb2]
      · rw [if_neg hb2]
  · intro p hp
    simp only [simulateMortgageWithRefi] at hp
    rw [if_neg hbal'] at hp
    by_cases hb1 : (amortize (annualRate / 100 / 12)
        (calculateMonthlyPayment P annualRate ty + extra) (ra * 12) (P - lump) lump 0).1
          ≤ 1 / 100
    · rw [if_pos hb1] at hp
      exact absurd hp (by simp)
    · rw [if_neg hb1] at hp
      by_cases hb2 : (amortize (annualRate / 100 / 12)
          (calculateMonthlyPayment P annualRate ty + extra) (ra * 12) (P - lump) lump 0).1
            - la ≤ 1 / 100
      · rw [if_pos hb2] at hp
        exact absurd hp (by simp)
      · rw [if_neg hb2] at hp
        simp only [Option.some.injEq] at hp
        exact hp.symm
  · intro hb1 hb2
    simp only [simulateMortgageWithRefi]
    rw [if_neg hbal', if_neg (not_le.mpr hb1), if_neg (not_le.mpr hb2)]


/-- Witness for C3 at concrete inputs. -/
theorem claimC3_witness :
    (simulateMortgageWithRefi (1000 : ℚ) 6 30 0 0 5 15 4 0 0).monthlyPayment
      = calculateMonthlyPayment (1000 : ℚ) 6 30 ∧
    (∀ p, (simulateMortgageWithRefi (1000 : ℚ) 6 30 0 0 5 15 4 0 0).refiMonthlyPayment
        = some p →
      p = calculateMonthlyPayment
        ((amortize ((6 : ℚ) / 100 / 12)
            (calculateMonthlyPayment (1000 : ℚ) 6 30 + 0)
            (5 * 12) ((1000 : ℚ) - 0) 0 0).1 - 0) 4 15) ∧
    (1 / 100 < (amortize ((6 : ℚ) / 100 / 12)
        (calculateMonthlyPayment (1000 : ℚ) 6 30 + 0)
        (5 * 12) ((1000 : ℚ) - 0) 0 0).1 →
      1 / 100 < (amortize ((6 : ℚ) / 100 / 12)
        (calculateMonthlyPayment (1000 : ℚ) 6 30 + 0)
        (5 * 12) ((1000 : ℚ) - 0) 0 0).1 - 0 →
      (simulateMortgageWithRefi (1000 : ℚ) 6 30 0 0 5 15 4 0 0).refiMonthlyPayment
        = some (calculateMonthlyPayment
            ((amortize ((6 : ℚ) / 100 / 12)
                (calculateMonthlyPayment (1000 : ℚ) 6 30 + 0)
                (5 * 12) ((1000 : ℚ) - 0) 0 0).1 - 0) 4 15)) :=
  claimC3 1000 6 30 0 0 5 15 4 0 0 (by norm_num)

/-- C5: `calculateAllScenarios` returns exactly 4 results, in the fixed
order standard / extra-no-refi / refi-no-extra-after /
refi-with-extra-after, and when the extra payment (which is what is
continued after the refinance in scenario 4) is zero and
`lumpSumAfterRefi` is zero, the scenarios at indices 2 and 3 agree on
`totalPaid`, `durationMonths`, `monthlyPayment` and
`refiMonthlyPayment`. -/
theorem claimC5 (inputs : CalculatorInputs) :
    (calculateAllScenarios inputs).length = 4 ∧
    (calculateAllScenarios inputs).get? 0 = some
      { totalPaid := (simulateMortgage inputs.loanAmount inputs.interestRate
          inputs.loanTermYears 0 0).totalPaid,
        durationMonths := (simulateMortgage inputs.loanAmount inputs.interestRate
          inputs.loanTermYears 0 0).durationMonths,
        monthlyPayment := (simulateMortgage inputs.loanAmount inputs.interestRate
          inputs.loanTermYears 0 0).monthlyPayment } ∧
    (calculateAllScenarios inputs).get? 1 = some
      { totalPaid := (simulateMortgage inputs.loanAmount inputs.interestRate
          inputs.loanTermYears inputs.extraPayment inputs.lumpSumAtStart).totalPaid,
        durationMonths := (simulateMortgage inputs.loanAmount inputs.interestRate
          inputs.loanTermYears inputs.extraPayment inputs.lumpSumAtStart).durationMonths,
        monthlyPayment := (simulateMortgage inputs.loanAmount inputs.interestRate
          inputs.loanTermYears inputs.extraPayment inputs.lumpSumAtStart).monthlyPayment } ∧
    (calculateAllScenarios inputs).get? 2 = some
      { totalPaid := (simulateMortgageWithRefi inputs.loanAmount inputs.interestRate
          inputs.loanTermYears inputs.extraPayment inputs.lumpSumAtStart
          inputs.refiAfterYears inputs.refiTermYears inputs.refiRate 0
          inputs.lumpSumAfterRefi).totalPaid,
        durationMonths := (simulateMortgageWithRefi inputs.loanAmount inputs.interestRate
          inputs.loanTermYears inputs.extraPayment inputs.lumpSumAtStart
          inputs.refiAfterYears inputs.refiTermYears inputs.refiRate 0
          inputs.lumpSumAfterRefi).durationMonths,
        monthlyPayment := (simulateMortgageWithRefi inputs.loanAmount inputs.interestRate
          inputs.loanTermYears inputs.extraPayment inputs.lumpSumAtStart
          inputs.refiAfterYears inputs.refiTermYears inputs.refiRate 0
          inputs.lumpSumAfterRefi).monthlyPayment,
        refiMonthlyPayment := (simulateMortgageWithRefi inputs.loanAmount inputs.interestRate
          inputs.loanTermYears inputs.extraPayment inputs.lumpSumAtStart
          inputs.refiAfterYears inputs.refiTermYears inputs.refiRate 0
          inputs.lumpSumAfterRefi).refiMonthlyPayment } ∧
    (calculateAllScenarios inputs).get? 3 = some
      { totalPaid := (simulateMortgageWithRefi inputs.loanAmount inputs.interestRate
          inputs.loanTermYears inputs.extraPayment inputs.lumpSumAtStart
          inputs.refiAfterYears inputs.refiTermYears inputs.refiRate
          inputs.extraPayment inputs.lumpSumAfterRefi).totalPaid,
        durationMonths := (simulateMortgageWithRefi inputs.loanAmount inputs.interestRate
          inputs.loanTermYears inputs.extraPayment inputs.lumpSumAtStart
          inputs.refiAfterYears inputs.refiTermYears inputs.refiRate
          inputs.extraPayment inputs.lumpSumAfterRefi).durationMonths,
        monthlyPayment := (simulateMortgageWithRefi inputs.loanAmount inputs.interestRate
          inputs.loanTermYears inputs.extraPayment inputs.lumpSumAtStart
          inputs.refiAfterYears inputs.refiTermYears inputs.refiRate
          inputs.extraPayment inputs.lumpSumAfterRefi).monthlyPayment,
        refiMonthlyPayment := (simulateMortgageWithRefi inputs.loanAmount inputs.interestRate
          inputs.loanTermYears inputs.extraPayment inputs.lumpSumAtStart
          inputs.refiAfterYears inputs.refiTermYears inputs.refiRate
          inputs.extraPayment inputs.lumpSumAfterRefi).refiMonthlyPayment } ∧
    (inputs.extraPayment = 0 → inputs.lumpSumAfterRefi = 0 →
      ∀ s2 s3, (calculateAllScenarios inputs).get? 2 = some s2 →
        (calculateAllScenarios inputs).get? 3 = some s3 →
        s2.totalPaid = s3.totalPaid ∧ s2.durationMonths = s3.durationMonths ∧
        s2.monthlyPayment = s3.monthlyPayment ∧
        s2.refiMonthlyPayment = s3.refiMonthlyPayment) := by
  refine ⟨rfl, rfl, rfl, rfl, rfl, ?_⟩
  intro h0 _ s2 s3 hs2 hs3
  simp only [calculateAllScenarios, List.get?] at hs2 hs3
  rw [h0] at hs2 hs3
  simp only [Option.some.injEq] at hs2 hs3
  rw [← hs2, ← hs3]
  exact ⟨rfl, rfl, rfl, rfl⟩

/-- C10: the standard baseline at index 0 depends only on `loanAmount`,
`interestRate` and `loanTermYears`: two inputs agreeing on those fields
produce index-0 results with identical `totalPaid`, `durationMonths` and
`monthlyPayment`, regardless of all other fields. -/
theorem claimC10 (a b : CalculatorInputs) (h1 : a.loanAmount = b.loanAmount)
    (h2 : a.interestRate = b.interestRate) (h3 : a.loanTermYears = b.loanTermYears) :
    ∀ s t, (calculateAllScenarios a).get? 0 = some s →
      (calculateAllScenarios b).get? 0 = some t →
      s.totalPaid = t.totalPaid ∧ s.durationMonths = t.durationMonths ∧
      s.monthlyPayment = t.monthlyPayment := by
  intro s t hs ht
  simp only [calculateAllScenarios, List.get?] at hs ht
  rw [h1, h2, h3] at hs
  simp only [Option.some.injEq] at hs ht
  rw [← hs, ← ht]
  exact ⟨rfl, rfl, rfl⟩

/-- Witness for C10 at concrete inputs. -/
theorem claimC10_witness :
    (ScenarioResult.mk (simulateMortgage 1000 6 30 0 0).totalPaid
      (simulateMortgage 1000 6 30 0 0).durationMonths
      (simulateMortgage 1000 6 30 0 0).monthlyPayment none).totalPaid
      = (ScenarioResult.mk (simulateMortgage 1000 6 30 0 0).totalPaid
      (simulateMortgage 1000 6 30 0 0).durationMonths
      (simulateMortgage 1000 6 30 0 0).monthlyPayment none).totalPaid ∧
    (ScenarioResult.mk (simulateMortgage 1000 6 30 0 0).totalPaid
      (simulateMortgage 1000 6 30 0 0).durationMonths
      (simulateMortgage 1000 6 30 0 0).monthlyPayment none).durationMonths
      = (ScenarioResult.mk (simulateMortgage 1000 6 30 0 0).totalPaid
      (simulateMortgage 1000 6 30 0 0).durationMonths
      (simulateMortgage 1000 6 30 0 0).monthlyPayment none).durationMonths ∧
    (ScenarioResult.mk (simulateMortgage 1000 6 30 0 0).totalPaid
      (simulateMortgage 1000 6 30 0 0).durationMonths
      (simulateMortgage 1000 6 30 0 0).monthlyPayment none).monthlyPayment
      = (ScenarioResult.mk (simulateMortgage 1000 6 30 0 0).totalPaid
      (simulateMortgage 1000 6 30 0 0).durationMonths
      (simulateMortgage 1000 6 30 0 0).monthlyPayment none).monthlyPayment :=
  claimC10
    { loanAmount := 1000, interestRate := 6, loanTermYears := 30, extraPayment := 50,
      lumpSumAtStart := 10, refiAfterYears := 5, refiTermYears := 15, refiRate := 4,
      lumpSumAfterRefi := 20 }
    { loanAmount := 1000, interestRate := 6, loanTermYears := 30, extraPayment := 0,
      lumpSumAtStart := 0, refiAfterYears := 7, refiTermYears := 10, refiRate := 5,
      lumpSumAfterRefi := 0 }
    rfl rfl rfl
    (ScenarioResult.mk (simulateMortgage 1000 6 30 0 0).totalPaid
      (simulateMortgage 1000 6 30 0 0).durationMonths
      (simulateMortgage 1000 6 30 0 0).monthlyPayment none)
    (ScenarioResult.mk (simulateMortgage 1000 6 30 0 0).totalPaid
      (simulateMortgage 1000 6 30 0 0).durationMonths
      (simulateMortgage 1000 6 30 0 0).monthlyPayment none)
    rfl rfl


/-- C7 counterexample: with principal 100.7 and a larger lump sum,
`totalPaid` is 101 — the principal rounded to a whole currency unit —
not the principal itself as the claim states. -/
theorem claimC7_counterexample :
    (simulateMortgage (1007 / 10) 5 30 0 200).totalPaid ≠ 1007 / 10 := by
  norm_num [simulateMortgage, jsRound]

/-- C7 (amended): for `P > 0` and a start lump sum at least `P`, both
simulators return immediately with `durationMonths = 0`,
`monthlyPayment = 0` and `totalPaid` equal to the original principal
rounded to the nearest whole currency unit (not the lump sum actually
paid, even when it exceeds the principal). -/
theorem claimC7 (P annualRate : ℚ) (ty : ℕ) (extra lump : ℚ)
    (ra rt : ℕ) (rr ea la : ℚ) (hP : 0 < P) (hlump : P ≤ lump) :
    simulateMortgage P annualRate ty extra lump =
      { totalPaid := (jsRound P : ℚ), durationMonths := 0, monthlyPayment := 0 } ∧
    simulateMortgageWithRefi P annualRate ty extra lump ra rt rr ea la =
      { totalPaid := (jsRound P : ℚ), durationMonths := 0, monthlyPayment := 0 } := by
  have h : P - lump ≤ 0 := by linarith
  constructor
  · simp only [simulateMortgage]
    rw [if_pos h]
  · simp only [simulateMortgageWithRefi]
    rw [if_pos h]

/-- Witness for C7 at concrete inputs. -/
theorem claimC7_witness :
    simulateMortgage 100 5 30 0 150 =
      { totalPaid := (jsRound 100 : ℚ), durationMonths := 0, monthlyPayment := 0 } ∧
    simulateMortgageWithRefi 100 5 30 0 150 1 1 0 0 0 =
      { totalPaid := (jsRound 100 : ℚ), durationMonths := 0, monthlyPayment := 0 } :=
  claimC7 100 5 30 0 150 1 1 0 0 0 (by norm_num) (by norm_num)

/-- C9: when phase 1 ends with a balance above the threshold and
`lumpSumAfterRefi` covers it (up to the threshold), the function returns
with the entire lump sum added to `totalPaid` — the excess over the
remaining balance is counted as paid — and no `refiMonthlyPayment`;
asymmetrically, in the at-start case `totalPaid` is capped at the rounded
original principal however large that lump sum is. -/
theorem claimC9 (P annualRate : ℚ) (ty : ℕ) (extra lump : ℚ)
    (ra rt : ℕ) (rr ea la : ℚ) (hbal : 0 < P - lump)
    (hb1 : 1 / 100 < (amortize (annualRate / 100 / 12)
      (calculateMonthlyPayment P annualRate ty + extra)
      (ra * 12) (P - lump) lump 0).1)
    (hcover : (amortize (annualRate / 100 / 12)
      (calculateMonthlyPayment P annualRate ty + extra)
      (ra * 12) (P - lump) lump 0).1 - la ≤ 1 / 100) :
    simulateMortgageWithRefi P annualRate ty extra lump ra rt rr ea la =
      { totalPaid := (jsRound ((amortize (annualRate / 100 / 12)
            (calculateMonthlyPayment P annualRate ty + extra)
            (ra * 12) (P - lump) lump 0).2.1 + la) : ℚ),
        durationMonths := (amortize (annualRate / 100 / 12)
            (calculateMonthlyPayment P annualRate ty + extra)
            (ra * 12) (P - lump) lump 0).2.2,
        monthlyPayment := calculateMonthlyPayment P annualRate ty } ∧
    (∀ lump2 : ℚ, P ≤ lump2 →
      (simulateMortgageWithRefi P annualRate ty extra lump2 ra rt rr ea la).totalPaid
        = (jsRound P : ℚ)) := by
  constructor
  · simp only [simulateMortgageWithRefi]
    rw [if_neg (not_le.mpr hbal), if_neg (not_le.mpr hb1), if_pos hcover]
  · intro lump2 hl2
    simp only [simulateMortgageWithRefi]
    rw [if_pos (by linarith : P - lump2 ≤ 0)]

/-- Witness for C9 at concrete inputs: refinance after 0 years, so phase
1 makes no payment and the balance of 100 is then covered by an oversized
lump sum of 150, all of which is counted as paid. -/
theorem claimC9_witness :
    simulateMortgageWithRefi 100 0 1 0 0 0 1 0 0 150 =
      { totalPaid := (jsRound ((amortize ((0 : ℚ) / 100 / 12)
            (calculateMonthlyPayment 100 0 1 + 0)
            (0 * 12) ((100 : ℚ) - 0) 0 0).2.1 + 150) : ℚ),
        durationMonths := (amortize ((0 : ℚ) / 100 / 12)
            (calculateMonthlyPayment 100 0 1 + 0)
            (0 * 12) ((100 : ℚ) - 0) 0 0).2.2,
        monthlyPayment := calculateMonthlyPayment 100 0 1 } ∧
    (∀ lump2 : ℚ, (100 : ℚ) ≤ lump2 →
      (simulateMortgageWithRefi 100 0 1 0 lump2 0 1 0 0 150).totalPaid
        = (jsRound 100 : ℚ)) :=
  claimC9 100 0 1 0 0 0 1 0 0 150 (by norm_num)
    (by norm_num [amortize]) (by norm_num [amortize])


/-- C6 counterexample: with principal 120.504, zero rate, one-year term
and no lump sum, raising the extra payment from 2.0076 to 2.0082 raises
`totalPaid` from 120 to 121: the smaller extra leaves a residual of
0.008 unpaid under the 0.01 stop threshold (total 120.496), the larger
leaves 0.002 (total 120.502), and whole-unit rounding separates the two
totals across the 120.5 boundary — with margins of several thousandths
on every comparison, so the same behavior occurs in IEEE-double
arithmetic. -/
theorem claimC6_counterexample :
    ¬ ((simulateMortgage (15063 / 125) 0 1 (10041 / 5000) 0).totalPaid
        ≤ (simulateMortgage (15063 / 125) 0 1 (5019 / 2500) 0).totalPaid) := by
  norm_num [simulateMortgage, amortize, calculateMonthlyPayment, jsRound, min_def]

/-- C6 (amended): for fixed principal, rate, term and start lump sum,
`durationMonths` is monotone: a larger `extraMonthlyPayment` never yields
a longer duration.  (`totalPaid` is not monotone, per the
counterexample.) -/
theorem claimC6 (P annualRate : ℚ) (ty : ℕ) (lump e1 e2 : ℚ)
    (hr : 0 ≤ annualRate) (he : e1 ≤ e2) :
    (simulateMortgage P annualRate ty e2 lump).durationMonths
      ≤ (simulateMortgage P annualRate ty e1 lump).durationMonths := by
  by_cases h : P - lump ≤ 0
  · simp only [simulateMortgage]
    rw [if_pos h, if_pos h]
  · simp only [simulateMortgage]
    rw [if_neg h, if_neg h]
    have hq : (0 : ℚ) ≤ 1 + annualRate / 100 / 12 := by positivity
    exact amortize_months_mono (annualRate / 100 / 12) hq (ty * 12)
      (calculateMonthlyPayment P annualRate ty + e1)
      (calculateMonthlyPayment P annualRate ty + e2)
      (P - lump) (P - lump) lump lump 0 (by linarith) le_rfl

/-- Witness for C6 at concrete inputs. -/
theorem claimC6_witness :
    (simulateMortgage 1000 6 30 100 0).durationMonths
      ≤ (simulateMortgage 1000 6 30 0 0).durationMonths :=
  claimC6 1000 6 30 0 0 100 (by norm_num) (by norm_num)

/-- C8 counterexample: principal 0.06 at zero rate over one year: the
per-month payment is 0.005, so the loop stops after 10 months with
balance 0.01 (at the threshold, not zero), and `totalPaid` is the
rounded 0.05, i.e. 0 — neither equal to the principal nor spanning the
full 12 periods. -/
theorem claimC8_counterexample :
    ¬ ((simulateMortgage (3 / 50) 0 1 0 0).totalPaid = 3 / 50 ∧
       (simulateMortgage (3 / 50) 0 1 0 0).durationMonths = 12) := by
  norm_num [simulateMortgage, amortize, calculateMonthlyPayment, jsRound, min_def]

/-- C8 (amended): at zero rate the scheduled payment is the straight-line
`P / (termYears*12)`, and — provided the per-month payment exceeds the
0.01 stop threshold, i.e. `P > (termYears*12)/100` — the simulation with
no extra payment and no lump sum runs exactly `termYears*12` periods and
returns `totalPaid` equal to the principal rounded to the nearest whole
currency unit (the unrounded accumulation is exactly `P`: no interest
accrues). -/
theorem claimC8 (P : ℚ) (ty : ℕ) (hty : 0 < ty)
    (hP : ((ty * 12 : ℕ) : ℚ) / 100 < P) :
    calculateMonthlyPayment P 0 ty = P / ((ty * 12 : ℕ) : ℚ) ∧
    (simulateMortgage P 0 ty 0 0).durationMonths = ty * 12 ∧
    (simulateMortgage P 0 ty 0 0).totalPaid = (jsRound P : ℚ) := by
  have hNpos : (0 : ℚ) < ((ty * 12 : ℕ) : ℚ) := by
    have h : 0 < ty * 12 := by omega
    exact_mod_cast h
  have hbase : calculateMonthlyPayment P 0 ty = P / ((ty * 12 : ℕ) : ℚ) := by
    simp only [calculateMonthlyPayment]
    norm_num
  have hPpos : 0 < P := lt_trans (by positivity) hP
  have hp : 1 / 100 < P / ((ty * 12 : ℕ) : ℚ) := by
    rw [lt_div_iff₀ hNpos]
    linarith
  have hmain : amortize 0 (P / ((ty * 12 : ℕ) : ℚ)) (ty * 12) P 0 0 =
      (0, 0 + P, 0 + ty * 12) := by
    have h := amortize_zero_rate (P / ((ty * 12 : ℕ) : ℚ)) hp (ty * 12) 0 0
    have hPe : ((ty * 12 : ℕ) : ℚ) * (P / ((ty * 12 : ℕ) : ℚ)) = P := by
      field_simp
    rw [hPe] at h
    exact h
  refine ⟨hbase, ?_, ?_⟩
  · simp only [simulateMortgage]
    rw [if_neg (by linarith : ¬ (P - 0 ≤ 0))]
    rw [hbase, add_zero, sub_zero]
    rw [show (0 : ℚ) / 100 / 12 = 0 from by norm_num]
    rw [hmain]
    show 0 + ty * 12 = ty * 12
    omega
  · simp only [simulateMortgage]
    rw [if_neg (by linarith : ¬ (P - 0 ≤ 0))]
    rw [hbase, add_zero, sub_zero]
    rw [show (0 : ℚ) / 100 / 12 = 0 from by norm_num]
    rw [hmain]
    show ((jsRound (0 + P) : ℤ) : ℚ) = ((jsRound P : ℤ) : ℚ)
    rw [zero_add]

/-- Witness for C8 at concrete inputs. -/
theorem claimC8_witness :
    calculateMonthlyPayment 1 0 1 = 1 / ((1 * 12 : ℕ) : ℚ) ∧
    (simulateMortgage 1 0 1 0 0).durationMonths = 1 * 12 ∧
    (simulateMortgage 1 0 1 0 0).totalPaid = (jsRound 1 : ℚ) :=
  claimC8 1 1 (by norm_num) (by norm_num)


/-- C4 counterexample: with principal 100 and a start lump sum of 150 the
only cash outflow is the 150 lump sum, yet `totalPaid` is 100 (the
rounded principal), not the outflow sum rounded to the nearest cent. -/
theorem claimC4_counterexample :
    (simulateMortgage 100 0 1 0 150).totalPaid
      ≠ roundToCents (simulateMortgageOutflows 100 0 1 0 150) := by
  norm_num [simulateMortgage, simulateMortgageOutflows, roundToCents, jsRound]

/-- C4 (amended): whenever the start lump sum does not cover the
principal, `totalPaid` of both simulators is the accumulated sum of all
cash outflows (per-period actual payments plus lump sums) rounded to the
nearest whole currency unit (not cent); when it does cover the principal,
`totalPaid` is instead the rounded original principal, ignoring the
actual outflow. -/
theorem claimC4 (P annualRate : ℚ) (ty : ℕ) (extra lump : ℚ)
    (ra rt : ℕ) (rr ea la : ℚ) :
    (0 < P - lump →
      (simulateMortgage P annualRate ty extra lump).totalPaid
        = (jsRound (simulateMortgageOutflows P annualRate ty extra lump) : ℚ) ∧
      (simulateMortgageWithRefi P annualRate ty extra lump ra rt rr ea la).totalPaid
        = (jsRound (simulateMortgageWithRefiOutflows
            P annualRate ty extra lump ra rt rr ea la) : ℚ)) ∧
    (P - lump ≤ 0 →
      (simulateMortgage P annualRate ty extra lump).totalPaid = (jsRound P : ℚ) ∧
      (simulateMortgageWithRefi P annualRate ty extra lump ra rt rr ea la).totalPaid
        = (jsRound P : ℚ)) := by
  constructor
  · intro h
    have h' : ¬ (P - lump ≤ 0) := not_le.mpr h
    constructor
    · simp only [simulateMortgage, simulateMortgageOutflows]
      rw [if_neg h', if_neg h']
      rw [amortize_acc]
    · simp only [simulateMortgageWithRefi, simulateMortgageWithRefiOutflows]
      rw [if_neg h', if_neg h']
      simp only [amortize_acc]
      by_cases hb1 : amortizeBalance (annualRate / 100 / 12)
          (calculateMonthlyPayment P annualRate ty + extra) (ra * 12) (P - lump) ≤ 1 / 100
      · rw [if_pos hb1, if_pos hb1]
      · rw [if_neg hb1, if_neg hb1]
        by_cases hb2 : amortizeBalance (annualRate / 100 / 12)
            (calculateMonthlyPayment P annualRate ty + extra) (ra * 12) (P - lump) - la
              ≤ 1 / 100
        · rw [if_pos hb2, if_pos hb2]
        · rw [if_neg hb2, if_neg hb2]
  · intro h
    constructor
    · simp only [simulateMortgage]
      rw [if_pos h]
    · simp only [simulateMortgageWithRefi]
      rw [if_pos h]

/-- Witness for C4 at concrete inputs. -/
theorem claimC4_witness :
    (simulateMortgage 1 0 1 0 0).totalPaid
      = (jsRound (simulateMortgageOutflows 1 0 1 0 0) : ℚ) ∧
    (simulateMortgageWithRefi 1 0 1 0 0 1 1 0 0 0).totalPaid
      = (jsRound (simulateMortgageWithRefiOutflows 1 0 1 0 0 1 1 0 0 0) : ℚ) :=
  (claimC4 1 0 1 0 0 1 1 0 0 0).1 (by norm_num)


/-- Witness for C5 at concrete inputs. -/
theorem claimC5_witness :
    (calculateAllScenarios sampleInputsA).length = 4 ∧
    (calculateAllScenarios sampleInputsA).get? 0 = some
      { totalPaid := (simulateMortgage sampleInputsA.loanAmount sampleInputsA.interestRate
          sampleInputsA.loanTermYears 0 0).totalPaid,
        durationMonths := (simulateMortgage sampleInputsA.loanAmount sampleInputsA.interestRate
          sampleInputsA.loanTermYears 0 0).durationMonths,
        monthlyPayment := (simulateMortgage sampleInputsA.loanAmount sampleInputsA.interestRate
          sampleInputsA.loanTermYears 0 0).monthlyPayment } ∧
    (calculateAllScenarios sampleInputsA).get? 1 = some
      { totalPaid := (simulateMortgage sampleInputsA.loanAmount sampleInputsA.interestRate
          sampleInputsA.loanTermYears sampleInputsA.extraPayment sampleInputsA.lumpSumAtStart).totalPaid,
        durationMonths := (simulateMortgage sampleInputsA.loanAmount sampleInputsA.interestRate
          sampleInputsA.loanTermYears sampleInputsA.extraPayment sampleInputsA.lumpSumAtStart).durationMonths,
        monthlyPayment := (simulateMortgage sampleInputsA.loanAmount sampleInputsA.interestRate
          sampleInputsA.loanTermYears sampleInputsA.extraPayment sampleInputsA.lumpSumAtStart).monthlyPayment } ∧
    (calculateAllScenarios sampleInputsA).get? 2 = some
      { totalPaid := (simulateMortgageWithRefi sampleInputsA.loanAmount sampleInputsA.interestRate
          sampleInputsA.loanTermYears sampleInputsA.extraPayment sampleInputsA.lumpSumAtStart
          sampleInputsA.refiAfterYears sampleInputsA.refiTermYears sampleInputsA.refiRate 0
          sampleInputsA.lumpSumAfterRefi).totalPaid,
        durationMonths := (simulateMortgageWithRefi sampleInputsA.loanAmount sampleInputsA.interestRate
          sampleInputsA.loanTermYears sampleInputsA.extraPayment sampleInputsA.lumpSumAtStart
          sampleInputsA.refiAfterYears sampleInputsA.refiTermYears sampleInputsA.refiRate 0
          sampleInputsA.lumpSumAfterRefi).durationMonths,
        monthlyPayment := (simulateMortgageWithRefi sampleInputsA.loanAmount sampleInputsA.interestRate
          sampleInputsA.loanTermYears sampleInputsA.extraPayment sampleInputsA.lumpSumAtStart
          sampleInputsA.refiAfterYears sampleInputsA.refiTermYears sampleInputsA.refiRate 0
          sampleInputsA.lumpSumAfterRefi).monthlyPayment,
        refiMonthlyPayment := (simulateMortgageWithRefi sampleInputsA.loanAmount sampleInputsA.interestRate
          sampleInputsA.loanTermYears sampleInputsA.extraPayment sampleInputsA.lumpSumAtStart
          sampleInputsA.refiAfterYears sampleInputsA.refiTermYears sampleInputsA.refiRate 0
          sampleInputsA.lumpSumAfterRefi).refiMonthlyPayment } ∧
    (calculateAllScenarios sampleInputsA).get? 3 = some
      { totalPaid := (simulateMortgageWithRefi sampleInputsA.loanAmount sampleInputsA.interestRate
          sampleInputsA.loanTermYears sampleInputsA.extraPayment sampleInputsA.lumpSumAtStart
          sampleInputsA.refiAfterYears sampleInputsA.refiTermYears sampleInputsA.refiRate
          sampleInputsA.extraPayment sampleInputsA.lumpSumAfterRefi).totalPaid,
        durationMonths := (simulateMortgageWithRefi sampleInputsA.loanAmount sampleInputsA.interestRate
          sampleInputsA.loanTermYears sampleInputsA.extraPayment sampleInputsA.lumpSumAtStart
          sampleInputsA.refiAfterYears sampleInputsA.refiTermYears sampleInputsA.refiRate
          sampleInputsA.extraPayment sampleInputsA.lumpSumAfterRefi).durationMonths,
        monthlyPayment := (simulateMortgageWithRefi sampleInputsA.loanAmount sampleInputsA.interestRate
          sampleInputsA.loanTermYears sampleInputsA.extraPayment sampleInputsA.lumpSumAtStart
          sampleInputsA.refiAfterYears sampleInputsA.refiTermYears sampleInputsA.refiRate
          sampleInputsA.extraPayment sampleInputsA.lumpSumAfterRefi).monthlyPayment,
        refiMonthlyPayment := (simulateMortgageWithRefi sampleInputsA.loanAmount sampleInputsA.interestRate
          sampleInputsA.loanTermYears sampleInputsA.extraPayment sampleInputsA.lumpSumAtStart
          sampleInputsA.refiAfterYears sampleInputsA.refiTermYears sampleInputsA.refiRate
          sampleInputsA.extraPayment sampleInputsA.lumpSumAfterRefi).refiMonthlyPayment } ∧
    (sampleInputsA.extraPayment = 0 → sampleInputsA.lumpSumAfterRefi = 0 →
      ∀ s2 s3, (calculateAllScenarios sampleInputsA).get? 2 = some s2 →
        (calculateAllScenarios sampleInputsA).get? 3 = some s3 →
        s2.totalPaid = s3.totalPaid ∧ s2.durationMonths = s3.durationMonths ∧
        s2.monthlyPayment = s3.monthlyPayment ∧
        s2.refiMonthlyPayment = s3.refiMonthlyPayment) :=
  claimC5 sampleInputsA

end MortgageCalc
